import Mathlib

/-!
Verification of the `WelcomeDialog` component
(`src/components/WelcomeDialog.vue`).

The script block of the component is embedded shallowly:

* `Props` is the record declared by `defineProps` (one boolean field,
  `modelValue`).
* `Emission` is the event type declared by `defineEmits`: a single event
  name, `update:modelValue`, whose payload is a boolean.
* A call of `emit` is modelled as the list of events it produces, and a
  handler is modelled as the list of all events emitted while it runs.
* `visible` is the computed getter/setter pair from the script.
* The template wiring (the `el-dialog` attribute bindings and the confirm
  button handler) is embedded as `welcomeDialogBinding` and
  `confirmButtonClick`; the visibility of the modal content is the
  `v-model` semantics of the dialog surface, embedded as `render`.

Parts of the surrounding system that are not in this repository (the owner
that holds the flag, and the discipline with which the host modal surface
writes through the `v-model` mirror) are modelled from the specification
and marked as such in their doc comments.
-/

namespace WelcomeDialog

/-- The inbound props declared by `defineProps`: a single required boolean
property `modelValue` (the visibility flag, called `open` in the
specification). This record is the entire externally supplied state of the
component; the script declares no `ref` or other local mutable state. -/
structure Props where
  modelValue : Bool
  deriving DecidableEq, Repr

/-- The outbound events declared by `defineEmits`: exactly one event name,
`update:modelValue`, whose payload slot has type boolean. No other event
name or payload type is representable. -/
inductive Emission where
  | updateModelValue (value : Bool)
  deriving DecidableEq, Repr

/-- The payload carried by an emission. -/
def payload : Emission → Bool
  | Emission.updateModelValue value => value

/-- A single call `emit(update:modelValue, value)` produces exactly one
event carrying `value`. -/
def emit (value : Bool) : List Emission :=
  [Emission.updateModelValue value]

/-- The shape of a `computed({get, set})` binding over the props: `get`
reads a value from the current props; `set` runs the setter, whose only
effect here is the events it emits (its type records that it neither reads
nor writes any other state). -/
structure Computed (α : Type) where
  get : Props → α
  set : α → List Emission

/-- The computed `visible` from the script:
`get: () => props.modelValue` and
`set: (val) => emit(update:modelValue, val)`. -/
def visible : Computed Bool :=
  { get := fun props => props.modelValue
    set := fun val => emit val }

/-- `handleConfirm` from the script: `emit(update:modelValue, false)`.
It takes no arguments and reads no props, so its behaviour cannot depend
on the current value of `modelValue`. -/
def handleConfirm : List Emission :=
  emit false

/-- `handleClosed` from the script: `emit(update:modelValue, false)`.
It takes no arguments and reads no props. -/
def handleClosed : List Emission :=
  emit false

/-- The rendered presentation states of the dialog. `Shown` stands for the
full modal content being mounted on the interaction surface; `Hidden`
stands for nothing being rendered. -/
inductive Rendered where
  | Shown
  | Hidden
  deriving DecidableEq, Repr

/-- The `v-model` semantics of the `el-dialog` surface in the template:
the full modal content is rendered exactly when `visible` reads `true`.
This is a function of the props alone, because `visible.get` is. -/
def render (props : Props) : Rendered :=
  if visible.get props then Rendered.Shown else Rendered.Hidden

/-- The attribute bindings placed on `el-dialog` in the template
(lines 2 to 8 of the source): `title=""`, `width="480px"`,
`:close-on-click-modal="false"`, and `@closed="handleClosed"`. A handler
is embedded as the list of events it emits when fired. -/
structure ElDialogBinding where
  title : String
  width : String
  closeOnClickModal : Bool
  onClosed : List Emission

/-- The concrete binding used by the component. -/
def welcomeDialogBinding : ElDialogBinding :=
  { title := ""
    width := "480px"
    closeOnClickModal := false
    onClosed := handleClosed }

/-- The `@click` handler of the confirm button in the template:
`handleConfirm`. -/
def confirmButtonClick : List Emission :=
  handleConfirm

/-- The code paths through which the component can emit: the confirm
button click (`handleConfirm`), the close-completion hook
(`handleClosed`), and a write through the `v-model` mirror
(`visible.set`). These are the only `emit` call sites in the script. -/
inductive EmitPath where
  | confirmAction
  | closedHook
  | mirrorWrite (val : Bool)
  deriving DecidableEq, Repr

/-- The events emitted when a given path runs. -/
def emissionsOf : EmitPath → List Emission
  | EmitPath.confirmAction => handleConfirm
  | EmitPath.closedHook => handleClosed
  | EmitPath.mirrorWrite val => visible.set val

/-- Modelled from the spec: which invocations of the emitting paths the
surrounding system can actually produce. The missing code is the host
modal surface (the `el-dialog` implementation), which is not part of this
repository. Per the specification, the surface writes through the
`v-model` mirror only during its close transition, always with value
`false`; it never writes `true`, because the `Hidden` to `Shown`
transition is driven solely by the owner changing `modelValue`. The two
handler paths are reachable from their template wiring. -/
def reachablePath : EmitPath → Prop
  | EmitPath.confirmAction => True
  | EmitPath.closedHook => True
  | EmitPath.mirrorWrite val => val = false

/-- The discrete events the component can observe: an interaction firing
one of its emitting paths, or the owner updating the inbound prop. -/
inductive ComponentEvent where
  | interaction (path : EmitPath)
  | ownerUpdate (val : Bool)
  deriving DecidableEq, Repr

/-- One synchronous step of the component: the resulting props together
with the events emitted during the step. The script registers no watcher
and no lifecycle effect on `modelValue`, and the only `emit` call sites
are `visible.set`, `handleConfirm` and `handleClosed`; hence an owner
update of the prop runs no emitting code and is reflected only through
`visible.get` on the next read. An interaction leaves the props unchanged,
because the component never mutates its own props. -/
def step (props : Props) : ComponentEvent → Props × List Emission
  | ComponentEvent.interaction path => (props, emissionsOf path)
  | ComponentEvent.ownerUpdate val => (⟨val⟩, [])

/-- Modelled from the spec: the reaction of the owner (the parent scope,
outside this repository) to a notification — the visibility flag is
mutated only in response to the change-request notification, and is set to
the carried value. -/
def applyEmission (_flag : Bool) : Emission → Bool
  | Emission.updateModelValue val => val

/-- Claim C1: reading the computed mirror `visible` always returns the
current value of the inbound `modelValue`, and writing any boolean `val`
to it emits exactly the one notification carrying `val`; the type of
`visible.set` records that no other state is created or changed. -/
theorem visible_mirrors_open :
    (∀ (props : Props), visible.get props = props.modelValue) ∧
    (∀ (val : Bool), visible.set val = [Emission.updateModelValue val]) := by
  constructor
  · intro props
    rfl
  · intro val
    rfl

/-- Claim C2: from every component state (every value of the inbound
boolean), the explicit acknowledgement interaction leaves the props
unchanged and emits exactly one notification, carrying `false`. -/
theorem handleConfirm_emits_single_false :
    ∀ (props : Props),
      step props (ComponentEvent.interaction EmitPath.confirmAction) =
        (props, [Emission.updateModelValue false]) := by
  intro props
  rfl

/-- Claim C3: from every component state (every value of the inbound
boolean), firing the close-completion hook leaves the props unchanged and
emits exactly one notification, carrying `false`. -/
theorem handleClosed_emits_single_false :
    ∀ (props : Props),
      step props (ComponentEvent.interaction EmitPath.closedHook) =
        (props, [Emission.updateModelValue false]) := by
  intro props
  rfl

/-- Claim C4: for every value `v` of the inbound boolean, the rendered
state is `Shown` iff `v = true`; moreover the rendered presentation is the
stated pure function of the latest observed `modelValue` (full modal
content when `true`, nothing when `false`). -/
theorem render_shown_iff_open :
    (∀ (v : Bool), render ⟨v⟩ = Rendered.Shown ↔ v = true) ∧
    (∀ (props : Props),
      render props =
        if props.modelValue then Rendered.Shown else Rendered.Hidden) := by
  constructor
  · intro v
    cases v <;> simp [render, visible]
  · intro props
    rfl

/-- Claim C5: every notification the component emits through a reachable
invocation of any of its emitting paths (acknowledgement action,
close-completion hook, mirror write) carries the value `false`; in
particular the component never emits `true`. -/
theorem all_emissions_carry_false :
    ∀ (path : EmitPath), reachablePath path →
      ∀ (e : Emission), e ∈ emissionsOf path →
        e = Emission.updateModelValue false := by
  intro path hreach e he
  cases path with
  | confirmAction =>
      simp [emissionsOf, handleConfirm, emit] at he
      exact he
  | closedHook =>
      simp [emissionsOf, handleClosed, emit] at he
      exact he
  | mirrorWrite val =>
      have hval : val = false := hreach
      subst hval
      simp [emissionsOf, visible, emit] at he
      exact he

/-- Witness for claim C5: the mirror write performed by the host surface
on dismissal is reachable, and the notification it emits carries
`false`. -/
theorem all_emissions_carry_false_witness :
    reachablePath (EmitPath.mirrorWrite false) ∧
      Emission.updateModelValue false = Emission.updateModelValue false :=
  ⟨rfl,
    all_emissions_carry_false (EmitPath.mirrorWrite false) rfl
      (Emission.updateModelValue false)
      (by simp [emissionsOf, visible, emit])⟩

/-- Claim C6: the implicit close-on-outside-click gesture of the host
surface is disabled in the template configuration, and the only
interaction handlers wired to close the dialog are the explicit
acknowledgement action and the close-completion hook. -/
theorem click_outside_close_disabled :
    welcomeDialogBinding.closeOnClickModal = false ∧
    welcomeDialogBinding.onClosed = handleClosed ∧
    confirmButtonClick = handleConfirm :=
  ⟨rfl, rfl, rfl⟩

/-- Claim C7: an external update of the inbound boolean by the owner emits
no notification (no emitting code runs on a prop change), reading the
mirror is pure, and in particular setting the flag from `false` to `true`
yields the rendered state `Shown` with an empty emission list. -/
theorem owner_update_emits_nothing :
    (∀ (props : Props) (val : Bool),
      step props (ComponentEvent.ownerUpdate val) = (⟨val⟩, [])) ∧
    (∀ (props : Props), visible.get props = props.modelValue) ∧
    render (step ⟨false⟩ (ComponentEvent.ownerUpdate true)).1 =
      Rendered.Shown := by
  refine ⟨?_, ?_, ?_⟩
  · intro props val
    rfl
  · intro props
    rfl
  · rfl

/-- Claim C8: running the explicit acknowledgement path and then the
close-completion hook emits `false` twice — and the second emission is
idempotent for the owner: applying the update to a flag that is already
`false` leaves it `false`, and hence the rendered state stays `Hidden`. -/
theorem second_emission_idempotent :
    handleConfirm ++ handleClosed =
      [Emission.updateModelValue false, Emission.updateModelValue false] ∧
    applyEmission false (Emission.updateModelValue false) = false ∧
    render ⟨applyEmission false (Emission.updateModelValue false)⟩ =
      Rendered.Hidden := by
  refine ⟨rfl, rfl, rfl⟩

/-- Claim C9: every value of the emission type is the single
`update:modelValue` constructor applied to a boolean payload, so a
notification with a non-boolean payload (or a different event name) is
unrepresentable. -/
theorem emission_payload_is_boolean :
    ∀ (e : Emission), e = Emission.updateModelValue (payload e) := by
  intro e
  cases e
  rfl

/-- Claim C10: the two dismissal handlers are extensionally equal, each
equals a write of `false` through the mirror setter, and from every
component state the two interactions produce identical observable
behaviour (the same resulting props and the same single emission of
`false`). -/
theorem dismissal_handlers_equal :
    handleConfirm = handleClosed ∧
    handleConfirm = visible.set false ∧
    (∀ (props : Props),
      step props (ComponentEvent.interaction EmitPath.confirmAction) =
        step props (ComponentEvent.interaction EmitPath.closedHook)) := by
  refine ⟨rfl, rfl, ?_⟩
  intro props
  rfl

end WelcomeDialog
